import Mathlib

/-!
Shallow embedding of the asynchronous travel-itinerary job subsystem
(`src/main.py`, `src/models.py`, `src/services/itinerary_generator.py`,
`src/services/openai_service.py`, `src/services/mongodb_service.py`).

Pure functions of the source become Lean functions; the store becomes an
explicit association list threaded through the operations; Python
exceptions become `Except` results; the nondeterministic environment
(provider responses, store reachability, clock readings) becomes explicit
parameters.
-/

namespace Spec2Proof

/-! ### Timestamps

`mongodb_service.py` round-trips `datetime` values through ISO-8601
strings: `datetime.isoformat()` on the way in, `datetime.fromisoformat`
(after replacing `Z` with `+00:00`) on the way out.  `DateTime` models the
Python `datetime` value; `isoformat` and `fromisoformat` model the two
stdlib conversions (core extended-ISO grammar: `YYYY-MM-DD`, optionally
followed by `T` or a space and `HH:MM[:SS[.ffffff]]` and an optional
`±HH:MM` offset). -/

structure DateTime where
  year : Nat
  month : Nat
  day : Nat
  hour : Nat
  minute : Nat
  second : Nat
  micro : Nat
  tzMinutes : Option Int
  deriving DecidableEq, Repr

def isLeap (y : Nat) : Bool :=
  (y % 4 == 0 && y % 100 != 0) || y % 400 == 0

def daysInMonth (y m : Nat) : Nat :=
  if m = 2 then (if isLeap y then 29 else 28)
  else if m = 4 ∨ m = 6 ∨ m = 9 ∨ m = 11 then 30
  else 31

def mkDateTime (y mo d h mi s micro : Nat) (tz : Option Int) : Option DateTime :=
  if 1 ≤ mo ∧ mo ≤ 12 ∧ 1 ≤ d ∧ d ≤ daysInMonth y mo ∧
      h ≤ 23 ∧ mi ≤ 59 ∧ s ≤ 59 ∧ micro ≤ 999999 then
    some ⟨y, mo, d, h, mi, s, micro, tz⟩
  else
    none

def digitVal (c : Char) : Option Nat :=
  if c.isDigit then some (c.toNat - 48) else none

def read2 : List Char → Option (Nat × List Char)
  | c1 :: c2 :: rest => do
    let d1 ← digitVal c1
    let d2 ← digitVal c2
    pure (10 * d1 + d2, rest)
  | _ => none

/-- Fractional seconds: one to six digits, scaled to microseconds. -/
def readFrac (cs : List Char) : Option (Nat × List Char) :=
  let digits := cs.takeWhile Char.isDigit
  let rest := cs.dropWhile Char.isDigit
  if 1 ≤ digits.length ∧ digits.length ≤ 6 then
    let v := digits.foldl (fun acc c => 10 * acc + (c.toNat - 48)) 0
    some (v * 10 ^ (6 - digits.length), rest)
  else
    none

/-- A trailing UTC offset `±HH:MM`, or nothing. -/
def readTz : List Char → Option (Option Int)
  | [] => some none
  | sign :: rest =>
    if sign = '+' ∨ sign = '-' then
      match rest with
      | h1 :: h2 :: ':' :: m1 :: m2 :: [] => do
        let hh ← digitVal h1
        let hl ← digitVal h2
        let mh ← digitVal m1
        let ml ← digitVal m2
        let h := 10 * hh + hl
        let m := 10 * mh + ml
        if h ≤ 23 ∧ m ≤ 59 then
          let total : Int := Int.ofNat (h * 60 + m)
          pure (some (if sign = '-' then -total else total))
        else
          none
      | _ => none
    else
      none

def readTime (y mo d : Nat) (cs : List Char) : Option DateTime := do
  let (h, cs) ← read2 cs
  match cs with
  | ':' :: cs => do
    let (mi, cs) ← read2 cs
    match cs with
    | ':' :: cs => do
      let (s, cs) ← read2 cs
      match cs with
      | '.' :: cs => do
        let (micro, cs) ← readFrac cs
        let tz ← readTz cs
        mkDateTime y mo d h mi s micro tz
      | _ => do
        let tz ← readTz cs
        mkDateTime y mo d h mi s 0 tz
    | _ => do
      let tz ← readTz cs
      mkDateTime y mo d h mi 0 0 tz
  | _ => none

/-- Model of Python's `datetime.fromisoformat`, over the character list. -/
def fromisoChars (cs : List Char) : Option DateTime :=
  match cs with
  | y1 :: y2 :: y3 :: y4 :: '-' :: mo1 :: mo2 :: '-' :: d1 :: d2 :: rest => do
    let a ← digitVal y1
    let b ← digitVal y2
    let c ← digitVal y3
    let e ← digitVal y4
    let y := 1000 * a + 100 * b + 10 * c + e
    let mh ← digitVal mo1
    let ml ← digitVal mo2
    let mo := 10 * mh + ml
    let dh ← digitVal d1
    let dl ← digitVal d2
    let d := 10 * dh + dl
    match rest with
    | [] => mkDateTime y mo d 0 0 0 0 none
    | sep :: timeCs =>
      if sep = 'T' ∨ sep = ' ' then readTime y mo d timeCs else none
  | _ => none

def fromisoformat (s : String) : Option DateTime :=
  fromisoChars s.data

/-- Python's `value.replace('Z', '+00:00')`: every `Z` is replaced. -/
def replaceZ : List Char → List Char
  | [] => []
  | 'Z' :: rest => '+' :: '0' :: '0' :: ':' :: '0' :: '0' :: replaceZ rest
  | c :: rest => c :: replaceZ rest

def pad2 (n : Nat) : String :=
  if n < 10 then "0" ++ toString n else toString n

def pad4 (n : Nat) : String :=
  if n < 10 then "000" ++ toString n
  else if n < 100 then "00" ++ toString n
  else if n < 1000 then "0" ++ toString n
  else toString n

def pad6 (n : Nat) : String :=
  let s := toString n
  String.mk (List.replicate (6 - s.length) '0') ++ s

def tzSuffix : Option Int → String
  | none => ""
  | some off =>
    let sign := if off < 0 then "-" else "+"
    let a := off.natAbs
    sign ++ pad2 (a / 60) ++ ":" ++ pad2 (a % 60)

/-- Model of Python's `datetime.isoformat()`. -/
def isoformat (d : DateTime) : String :=
  pad4 d.year ++ "-" ++ pad2 d.month ++ "-" ++ pad2 d.day ++ "T" ++
    pad2 d.hour ++ ":" ++ pad2 d.minute ++ ":" ++ pad2 d.second ++
    (if d.micro = 0 then "" else "." ++ pad6 d.micro) ++
    tzSuffix d.tzMinutes

/-- `MongoDBService._is_iso_datetime` (src/services/mongodb_service.py,
lines 183–191): replace `Z` with `+00:00` and test `fromisoformat`. -/
def isIsoDatetime (value : String) : Bool :=
  (fromisoChars (replaceZ value.data)).isSome

/-- The parse performed by `_process_data_from_mongodb` on a string value. -/
def parseIsoValue (value : String) : Option DateTime :=
  fromisoChars (replaceZ value.data)

example : isIsoDatetime "2023-01-01" = true := by decide
example : isIsoDatetime "Paris, France" = false := by decide
example : isIsoDatetime "2023-01-01T12:30:05" = true := by decide
example : isIsoDatetime "2023-01-01T12:30:05Z" = true := by decide
example : isIsoDatetime "6fa459ea-ee8a-3ca4-894e-db77e160355e" = false := by decide

/-! ### Document values

The store-facing documents of `mongodb_service.py` are Python dicts whose
values are strings, ints, `datetime`s, `None`, lists and nested dicts.
`Value`/`VList`/`VFields` is that value universe (fields keep insertion
order, as Python dicts do). -/

mutual

inductive Value where
  | str (s : String)
  | int (n : Int)
  | dt (d : DateTime)
  | null
  | list (items : VList)
  | doc (fields : VFields)
  deriving DecidableEq, Repr

inductive VList where
  | nil
  | cons (v : Value) (rest : VList)
  deriving DecidableEq, Repr

inductive VFields where
  | nil
  | cons (key : String) (v : Value) (rest : VFields)
  deriving DecidableEq, Repr

end

def VFields.lookup : VFields → String → Option Value
  | .nil, _ => none
  | .cons k v rest, key => if k = key then some v else rest.lookup key

/-- Python dict assignment `data[key] = value`: overwrite in place when the
key exists, append otherwise. -/
def VFields.set : VFields → String → Value → VFields
  | .nil, key, value => .cons key value .nil
  | .cons k v rest, key, value =>
    if k = key then .cons k value rest else .cons k v (rest.set key value)

/-- Mongo's `$set` with an update document: set each field in order. -/
def VFields.setAll : VFields → VFields → VFields
  | doc, .nil => doc
  | doc, .cons k v rest => (doc.set k v).setAll rest

def VList.length : VList → Nat
  | .nil => 0
  | .cons _ rest => 1 + rest.length

def VList.toList : VList → List Value
  | .nil => []
  | .cons v rest => v :: rest.toList

/-! ### `_prepare_data_for_mongodb` (src/services/mongodb_service.py,
lines 133–153): `datetime` values become ISO strings; nested dicts are
processed recursively; inside a list only dict items are processed (a
`datetime` or a list sitting directly inside a list is left as is);
everything else is copied. -/

mutual

def prepareVal : Value → Value
  | .dt d => .str (isoformat d)
  | .doc fs => .doc (prepareDoc fs)
  | .list items => .list (prepareListItems items)
  | v => v

def prepareListItems : VList → VList
  | .nil => .nil
  | .cons v rest =>
    .cons (match v with
            | .doc fs => .doc (prepareDoc fs)
            | other => other)
      (prepareListItems rest)

def prepareDoc : VFields → VFields
  | .nil => .nil
  | .cons k v rest => .cons k (prepareVal v) (prepareDoc rest)

end

/-! ### `_process_data_from_mongodb` (src/services/mongodb_service.py,
lines 155–181): the `_id` key is dropped (the guard `key == "_id" and
key != "jobId"` is equivalent to `key == "_id"`); a string value that
parses as ISO-8601 becomes a `datetime`; nested dicts recurse; inside a
list only dict items recurse; everything else is copied. -/

mutual

def processVal : Value → Value
  | .str s =>
    match parseIsoValue s with
    | some d => .dt d
    | none => .str s
  | .doc fs => .doc (processDoc fs)
  | .list items => .list (processListItems items)
  | v => v

def processListItems : VList → VList
  | .nil => .nil
  | .cons v rest =>
    .cons (match v with
            | .doc fs => .doc (processDoc fs)
            | other => other)
      (processListItems rest)

def processDoc : VFields → VFields
  | .nil => .nil
  | .cons k v rest =>
    if k = "_id" then processDoc rest
    else .cons k (processVal v) (processDoc rest)

end

/-! ### The store

An association list from document id to stored fields models the
`itineraries` collection.  The adapter operations mirror
`create_document`, `update_document` and `get_document`
(src/services/mongodb_service.py, lines 47–100). -/

abbrev Store := List (String × VFields)

def Store.find : Store → String → Option VFields
  | [], _ => none
  | (k, doc) :: rest, id => if k = id then some doc else Store.find rest id

def Store.put : Store → String → VFields → Store
  | [], id, doc => [(id, doc)]
  | (k, d) :: rest, id, doc =>
    if k = id then (k, doc) :: rest else (k, d) :: Store.put rest id doc

/-- `create_document`: add `_id` and `jobId`, prepare, insert.  Mongo's
`insert_one` raises on a duplicate `_id`; the method re-raises. -/
def createDocument (documentId : String) (data : VFields) (st : Store) :
    Except String Store :=
  let data := (data.set "_id" (.str documentId)).set "jobId" (.str documentId)
  let processed := prepareDoc data
  match st.find documentId with
  | some _ => .error "duplicate key"
  | none => .ok (st.put documentId processed)

/-- `update_document`: prepare the partial data and `$set` it; a missing
id is only logged (`matched_count == 0`), no error reaches the caller. -/
def updateDocument (documentId : String) (data : VFields) (st : Store) : Store :=
  let processed := prepareDoc data
  match st.find documentId with
  | none => st
  | some doc => st.put documentId (doc.setAll processed)

/-- `get_document`: read and decode, `none` when the id is absent. -/
def getDocument (documentId : String) (st : Store) : Option VFields :=
  match st.find documentId with
  | none => none
  | some doc => some (processDoc doc)

/-! ### Models (src/models.py)

`Activity` and `DayItinerary` are the pydantic models; `day` carries the
`ge=1` constraint at parse time, so it is a `Nat` here and the client's
parser only accepts values `≥ 1`. -/

structure Activity where
  time : String
  description : String
  location : String
  deriving DecidableEq, Repr

structure DayItinerary where
  day : Nat
  theme : String
  activities : List Activity
  deriving DecidableEq, Repr

/-- `Activity.dict()`. -/
def Activity.toFields (a : Activity) : VFields :=
  .cons "time" (.str a.time) (.cons "description" (.str a.description)
    (.cons "location" (.str a.location) .nil))

def activitiesToVList : List Activity → VList
  | [] => .nil
  | a :: rest => .cons (.doc a.toFields) (activitiesToVList rest)

/-- `DayItinerary.dict()`. -/
def DayItinerary.toFields (d : DayItinerary) : VFields :=
  .cons "day" (.int (Int.ofNat d.day)) (.cons "theme" (.str d.theme)
    (.cons "activities" (.list (activitiesToVList d.activities)) .nil))

/-- `[item.dict() for item in itinerary_data]` in `mark_as_completed`. -/
def itineraryToVList : List DayItinerary → VList
  | [] => .nil
  | d :: rest => .cons (.doc d.toFields) (itineraryToVList rest)

/-- `mark_as_completed` (src/services/mongodb_service.py, lines 102–110). -/
def markAsCompleted (documentId : String) (itinerary : List DayItinerary)
    (now : DateTime) (st : Store) : Store :=
  updateDocument documentId
    (.cons "status" (.str "completed") (.cons "completedAt" (.dt now)
      (.cons "itinerary" (.list (itineraryToVList itinerary))
        (.cons "error" .null .nil)))) st

/-- `mark_as_failed` (src/services/mongodb_service.py, lines 112–119). -/
def markAsFailed (documentId : String) (errorMessage : String)
    (now : DateTime) (st : Store) : Store :=
  updateDocument documentId
    (.cons "status" (.str "failed") (.cons "completedAt" (.dt now)
      (.cons "error" (.str errorMessage) .nil))) st

/-! ### Content Validator
(`ItineraryGenerator._validate_itinerary`,
src/services/itinerary_generator.py, lines 55–92)

The Python method raises `ValueError` with a message at the first failing
check; `VErr` is the message's abstract form and `VErr.render` the exact
string raised.  The method iterates the days with `enumerate(itinerary, 1)`
and checks each day completely before the next one. -/

/-- Python's `str.strip()` default whitespace (ASCII core). -/
def isPyWhitespace (c : Char) : Bool :=
  c = ' ' ∨ c = '\t' ∨ c = '\n' ∨ c = '\r' ∨ c = '\x0b' ∨ c = '\x0c'

/-- Python's truthiness-plus-strip emptiness test `not s or not
s.strip()`: the string is empty or entirely whitespace. -/
def strBlank (s : String) : Bool :=
  s.data.all isPyWhitespace

inductive VErr where
  | empty
  | wrongLength (expected got : Nat)
  | dayMismatch (position got : Nat)
  | missingTheme (day : Nat)
  | noActivities (day : Nat)
  | missingSlots (day : Nat) (missing : List String)
  | missingDescription (day : Nat) (time : String)
  | missingLocation (day : Nat) (time : String)
  deriving DecidableEq, Repr

def joinComma : List String → String
  | [] => ""
  | [s] => s
  | s :: rest => s ++ ", " ++ joinComma rest

def VErr.render : VErr → String
  | .empty => "Generated itinerary is empty"
  | .wrongLength expected got =>
    "Expected " ++ toString expected ++ " days, but got " ++ toString got ++ " days"
  | .dayMismatch position got =>
    "Day numbering mismatch: expected day " ++ toString position ++
      ", got day " ++ toString got
  | .missingTheme day => "Day " ++ toString day ++ " is missing a theme"
  | .noActivities day => "Day " ++ toString day ++ " has no activities"
  | .missingSlots day missing =>
    "Day " ++ toString day ++ " is missing activities for: " ++ joinComma missing
  | .missingDescription day time =>
    "Day " ++ toString day ++ ", " ++ time ++ " activity is missing description"
  | .missingLocation day time =>
    "Day " ++ toString day ++ ", " ++ time ++ " activity is missing location"

def requiredTimes : List String := ["Morning", "Afternoon", "Evening"]

/-- `required_times - activity_times`, in canonical order. -/
def missingTimes (activities : List Activity) : List String :=
  requiredTimes.filter (fun t => activities.all (fun a => a.time ≠ t))

/-- The per-activity loop at the bottom of `_validate_itinerary`. -/
def validateActivities (dayIndex : Nat) : List Activity → Except VErr Unit
  | [] => .ok ()
  | a :: rest =>
    if strBlank a.description then .error (.missingDescription dayIndex a.time)
    else if strBlank a.location then .error (.missingLocation dayIndex a.time)
    else validateActivities dayIndex rest

/-- The `for i, day in enumerate(itinerary, 1)` loop: each day is fully
checked before the next day is looked at. -/
def validateDays : List DayItinerary → Nat → Except VErr Unit
  | [], _ => .ok ()
  | d :: rest, i =>
    if d.day ≠ i then .error (.dayMismatch i d.day)
    else if strBlank d.theme then .error (.missingTheme i)
    else if d.activities.isEmpty then .error (.noActivities i)
    else if ¬ (missingTimes d.activities).isEmpty then
      .error (.missingSlots i (missingTimes d.activities))
    else
      match validateActivities i d.activities with
      | .error e => .error e
      | .ok () => validateDays rest (i + 1)

/-- `_validate_itinerary`. -/
def validateItinerary (itinerary : List DayItinerary) (expectedDays : Nat) :
    Except VErr Unit :=
  if itinerary.isEmpty then .error .empty
  else if itinerary.length ≠ expectedDays then
    .error (.wrongLength expectedDays itinerary.length)
  else validateDays itinerary 1

/-! #### Declarative view of the seven checks of §4.3

`allChecksB` is the order-independent conjunction of the spec's seven
checks; `specOrderReason` reports the reason of the first failing check
in the spec's listed order 1–7 (each per-day check scanning the days from
the first); `codeOrderReason` reports the first failure in the code's
traversal order (each day checked completely before the next). -/

def errOf : Except VErr Unit → Option VErr
  | .ok _ => none
  | .error e => some e

def checkDayNumbersB (cand : List DayItinerary) : Bool :=
  (List.enumFrom 1 cand).all (fun p => p.2.day == p.1)

def checkThemesB (cand : List DayItinerary) : Bool :=
  cand.all (fun d => !strBlank d.theme)

def checkHasActivitiesB (cand : List DayItinerary) : Bool :=
  cand.all (fun d => !d.activities.isEmpty)

def checkSlotsB (cand : List DayItinerary) : Bool :=
  cand.all (fun d => (missingTimes d.activities).isEmpty)

def checkFieldsB (cand : List DayItinerary) : Bool :=
  cand.all (fun d =>
    d.activities.all (fun a => !strBlank a.description && !strBlank a.location))

def allChecksB (cand : List DayItinerary) (n : Nat) : Bool :=
  !cand.isEmpty && cand.length == n && checkDayNumbersB cand &&
    checkThemesB cand && checkHasActivitiesB cand &&
    checkSlotsB cand && checkFieldsB cand

/-- First day (1-based) for which the given per-day check yields an
error. -/
def firstDayErr (cand : List DayItinerary) (p : Nat → DayItinerary → Option VErr) :
    Option VErr :=
  (List.enumFrom 1 cand).findSome? (fun q => p q.1 q.2)

/-- The description/location checks of one day's activity list, as the
ordered list of (fails?, reason) pairs the code walks. -/
def actChecks (i : Nat) : List Activity → List (Bool × VErr)
  | [] => []
  | a :: rest =>
    (strBlank a.description, .missingDescription i a.time) ::
      (strBlank a.location, .missingLocation i a.time) :: actChecks i rest

/-- All of one day's (fails?, reason) pairs in the code's order. -/
def dayChecks (i : Nat) (d : DayItinerary) : List (Bool × VErr) :=
  [(d.day != i, .dayMismatch i d.day),
   (strBlank d.theme, .missingTheme i),
   (d.activities.isEmpty, .noActivities i),
   (!(missingTimes d.activities).isEmpty, .missingSlots i (missingTimes d.activities))]
  ++ actChecks i d.activities

/-- The (fails?, reason) pairs of all days from 1-based position `i` on,
in the code's traversal order. -/
def allDayChecks : Nat → List DayItinerary → List (Bool × VErr)
  | _, [] => []
  | i, d :: rest => dayChecks i d ++ allDayChecks (i + 1) rest

/-- The first failure in the code's traversal order: global checks 1 and
2, then every check of day 1, then every check of day 2, and so on. -/
def codeOrderReason (cand : List DayItinerary) (n : Nat) : Option VErr :=
  if cand.isEmpty then some .empty
  else if cand.length ≠ n then some (.wrongLength n cand.length)
  else
    ((allDayChecks 1 cand).find? (fun c => c.1)).map (fun c => c.2)

/-- The first failure in the spec's listed order: check 3 over all days,
then check 4 over all days, and so on; within one check the first
offending day (and activity) is named. -/
def specOrderReason (cand : List DayItinerary) (n : Nat) : Option VErr :=
  if cand.isEmpty then some .empty
  else if cand.length ≠ n then some (.wrongLength n cand.length)
  else if !checkDayNumbersB cand then
    firstDayErr cand (fun i d =>
      if d.day ≠ i then some (.dayMismatch i d.day) else none)
  else if !checkThemesB cand then
    firstDayErr cand (fun i d =>
      if strBlank d.theme then some (.missingTheme i) else none)
  else if !checkHasActivitiesB cand then
    firstDayErr cand (fun i d =>
      if d.activities.isEmpty then some (.noActivities i) else none)
  else if !checkSlotsB cand then
    firstDayErr cand (fun i d =>
      if !(missingTimes d.activities).isEmpty then
        some (.missingSlots i (missingTimes d.activities))
      else none)
  else if !checkFieldsB cand then
    firstDayErr cand (fun i d =>
      ((actChecks i d.activities).find? (fun c => c.1)).map (fun c => c.2))
  else none

/-! ### Generation Client (`OpenAIService`, src/services/openai_service.py)

One provider attempt answers with: a 200 whose (already extracted)
message content either is not JSON or is some JSON value; a 429; a
timeout; an `aiohttp.ClientError`; or any other status.  `GenContent`
abstracts the `result["choices"][0]["message"]["content"]` extraction
(`badEnvelope` stands for a 200 whose envelope lacks those keys — the
`KeyError` is caught by no clause and ends the call). -/

inductive GenContent where
  | badEnvelope
  | notJson
  | jsonVal (v : Value)
  deriving DecidableEq, Repr

inductive Response where
  | success (content : GenContent)
  | rateLimited
  | timedOut
  | netError (msg : String)
  | apiError (status : Nat) (body : String)
  deriving DecidableEq, Repr

/-- The terminal exceptions `generate_itinerary` can raise.  `invalidJson`
is the `ValueError` of line 115 (`json.loads` failure or missing
`itinerary` key); `invalidStructure` the `ValueError` of
`_parse_itinerary`; `pydanticError` a model-validation failure propagating
out of a `DayItinerary`/`Activity` constructor; `typeErr` an uncaught
`TypeError`/`KeyError` on a 200 whose JSON is not an object of lists of
objects.  None of the four is caught by the retry clauses (which catch
only `asyncio.TimeoutError` and `aiohttp.ClientError`). -/
inductive GenFailure where
  | invalidJson (msg : String)
  | invalidStructure (msg : String)
  | pydanticError (msg : String)
  | typeErr (msg : String)
  | apiError (status : Nat) (body : String)
  | rateLimitExhausted
  | timeoutExhausted
  | networkExhausted (msg : String)
  | exhausted
  deriving DecidableEq, Repr

/-- `str(e)` of the raised exception, as interpolated by the caller. -/
def GenFailure.message : GenFailure → String
  | .invalidJson m => m
  | .invalidStructure m => m
  | .pydanticError m => m
  | .typeErr m => m
  | .apiError status body =>
    "OpenAI API error " ++ toString status ++ ": " ++ body
  | .rateLimitExhausted => "Rate limit exceeded after all retries"
  | .timeoutExhausted => "Request timeout after all retries"
  | .networkExhausted m => "Network error after all retries: " ++ m
  | .exhausted => "Failed to generate itinerary after all retries"

inductive ParseFail where
  | keyOrType (msg : String)
  | pydantic (msg : String)
  deriving DecidableEq, Repr

/-- One `Activity(...)` construction inside `_parse_itinerary`: the three
keys must be present (`KeyError` otherwise) and string-valued (non-string
values are modelled as a pydantic validation failure). -/
def parseActivity : Value → Except ParseFail Activity
  | .doc fs =>
    match fs.lookup "time", fs.lookup "description", fs.lookup "location" with
    | some (.str t), some (.str de), some (.str l) => .ok ⟨t, de, l⟩
    | some _, some _, some _ => .error (.pydantic "activity field is not a string")
    | _, _, _ => .error (.keyOrType "missing activity key")
  | _ => .error (.keyOrType "activity is not an object")

def parseActivities : VList → Except ParseFail (List Activity)
  | .nil => .ok []
  | .cons v rest => do
    let a ← parseActivity v
    let more ← parseActivities rest
    pure (a :: more)

/-- One `DayItinerary(...)` construction: `day` must be an integer `≥ 1`
(the model's `ge=1`), `theme` a string, `activities` a list. -/
def parseDay : Value → Except ParseFail DayItinerary
  | .doc fs =>
    match fs.lookup "activities" with
    | some (.list items) =>
      match parseActivities items with
      | .error e => .error e
      | .ok activities =>
        match fs.lookup "day", fs.lookup "theme" with
        | some (.int n), some (.str theme) =>
          if 1 ≤ n then .ok ⟨n.toNat, theme, activities⟩
          else .error (.pydantic "day must be >= 1")
        | some _, some _ => .error (.pydantic "day/theme has the wrong type")
        | _, _ => .error (.keyOrType "missing day or theme key")
    | some _ => .error (.keyOrType "activities is not a list")
    | none => .error (.keyOrType "missing activities key")
  | _ => .error (.keyOrType "day entry is not an object")

/-- `_parse_itinerary` (src/services/openai_service.py, lines 147–173):
the first bad day entry aborts the whole parse. -/
def parseItinerary : VList → Except ParseFail (List DayItinerary)
  | .nil => .ok []
  | .cons v rest => do
    let d ← parseDay v
    let more ← parseItinerary rest
    pure (d :: more)

/-- The 200 branch (src/services/openai_service.py, lines 106–115):
`json.loads` the content, index `["itinerary"]`, `_parse_itinerary` it. -/
def handleSuccess : GenContent → Except GenFailure (List DayItinerary)
  | .badEnvelope => .error (.typeErr "KeyError: choices")
  | .notJson =>
    .error (.invalidJson "Invalid JSON response from OpenAI: JSONDecodeError")
  | .jsonVal v =>
    match v with
    | .doc fs =>
      match fs.lookup "itinerary" with
      | none =>
        .error (.invalidJson "Invalid JSON response from OpenAI: KeyError: itinerary")
      | some (.list items) =>
        match parseItinerary items with
        | .ok itinerary => .ok itinerary
        | .error (.keyOrType m) =>
          .error (.invalidStructure ("Invalid itinerary structure: " ++ m))
        | .error (.pydantic m) => .error (.pydanticError m)
      | some _ => .error (.typeErr "itinerary value is not iterable as day objects")
    | _ => .error (.typeErr "response JSON is not an object")

def maxRetries : Nat := 3

def retryDelay : Nat := 1

structure GenResult where
  result : Except GenFailure (List DayItinerary)
  delays : List Nat
  attempts : Nat
  deriving Repr

/-- The `for attempt in range(self.max_retries)` loop of
`generate_itinerary` (src/services/openai_service.py, lines 96–145).
`fuel` is the number of loop iterations left; a retryable failure with
`attempt < max_retries - 1` sleeps `retry_delay * 2 ** attempt` and
continues, any other outcome returns or raises; running out of fuel is the
final `raise` of line 145 (unreachable, since the last iteration always
returns or raises). -/
def generateLoop (responses : Nat → Response) :
    Nat → Nat → List Nat → GenResult
  | 0, attempt, delays => ⟨.error .exhausted, delays, attempt⟩
  | fuel + 1, attempt, delays =>
    match responses attempt with
    | .success content =>
      match handleSuccess content with
      | .ok itinerary => ⟨.ok itinerary, delays, attempt + 1⟩
      | .error e => ⟨.error e, delays, attempt + 1⟩
    | .rateLimited =>
      if attempt < maxRetries - 1 then
        generateLoop responses fuel (attempt + 1)
          (delays ++ [retryDelay * 2 ^ attempt])
      else ⟨.error .rateLimitExhausted, delays, attempt + 1⟩
    | .timedOut =>
      if attempt < maxRetries - 1 then
        generateLoop responses fuel (attempt + 1)
          (delays ++ [retryDelay * 2 ^ attempt])
      else ⟨.error .timeoutExhausted, delays, attempt + 1⟩
    | .netError m =>
      if attempt < maxRetries - 1 then
        generateLoop responses fuel (attempt + 1)
          (delays ++ [retryDelay * 2 ^ attempt])
      else ⟨.error (.networkExhausted m), delays, attempt + 1⟩
    | .apiError status body => ⟨.error (.apiError status body), delays, attempt + 1⟩

/-- `OpenAIService.generate_itinerary`, as a function of the per-attempt
provider behavior. -/
def generateItinerary (responses : Nat → Response) : GenResult :=
  generateLoop responses maxRetries 0 []

/-- A response retried by the client when budget remains. -/
def retryable : Response → Bool
  | .rateLimited => true
  | .timedOut => true
  | .netError _ => true
  | _ => false

/-! ### Job Orchestrator background task
(`ItineraryGenerator.generate_and_save_itinerary`,
src/services/itinerary_generator.py, lines 21–53)

The store's reachability for the two terminal writes is environment
input: `completedWriteOk` (resp. `failedWriteOk`) says whether the
`mark_as_completed` (resp. `mark_as_failed`) call succeeds, and
`storeError` is `str(e)` of the exception a failing `mark_as_completed`
raises.  The returned trace lists the terminal-write attempts in order. -/

inductive WriteAttempt where
  | completedWrite (ok : Bool)
  | failedWrite (ok : Bool)
  deriving DecidableEq, Repr

/-- The `except` block: build the error message, attempt `mark_as_failed`
once; a failure of that write is only logged (inner `try`/`except`). -/
def handleFailure (jobId : String) (errorMessage : String)
    (failedWriteOk : Bool) (nowF : DateTime) (st : Store)
    (pre : List WriteAttempt) : Store × List WriteAttempt :=
  if failedWriteOk then
    (markAsFailed jobId ("Failed to generate itinerary: " ++ errorMessage) nowF st,
      pre ++ [.failedWrite true])
  else
    (st, pre ++ [.failedWrite false])

/-- `generate_and_save_itinerary`: generate, validate, `mark_as_completed`;
any exception of those three steps falls into the `except` block. -/
def generateAndSave (responses : Nat → Response) (jobId : String)
    (durationDays : Nat) (completedWriteOk failedWriteOk : Bool)
    (storeError : String) (nowC nowF : DateTime) (st : Store) :
    Store × List WriteAttempt :=
  match (generateItinerary responses).result with
  | .error e => handleFailure jobId e.message failedWriteOk nowF st []
  | .ok itinerary =>
    match validateItinerary itinerary durationDays with
    | .error ve => handleFailure jobId ve.render failedWriteOk nowF st []
    | .ok () =>
      if completedWriteOk then
        (markAsCompleted jobId itinerary nowC st, [.completedWrite true])
      else
        handleFailure jobId storeError failedWriteOk nowF st
          [.completedWrite false]

/-! ### Request Router endpoints (src/main.py) -/

set_option linter.unusedVariables false in
/-- `TravelRequest` (src/models.py, lines 6–9): pydantic enforces
`durationDays` with `gt=0, le=30`; `destination` is only required to be a
string — no emptiness constraint, so the parameter is unused. -/
def travelRequestValid (destination : String) (durationDays : Int) : Bool :=
  decide (0 < durationDays) && decide (durationDays ≤ 30)

/-- `ItineraryData(...).dict()` built by the create endpoint
(src/main.py, lines 69–77), fields in model declaration order. -/
def initialFields (destination : String) (durationDays : Int)
    (now : DateTime) : VFields :=
  .cons "status" (.str "processing")
    (.cons "destination" (.str destination)
      (.cons "durationDays" (.int durationDays)
        (.cons "createdAt" (.dt now)
          (.cons "completedAt" .null
            (.cons "itinerary" (.list .nil)
              (.cons "error" .null .nil))))))

inductive CreateResponse where
  | accepted (jobId : String)
  | validationRejected
  | serverError (detail : String)
  deriving DecidableEq, Repr

structure CreateOutcome where
  store : Store
  response : CreateResponse
  scheduled : Bool
  deriving DecidableEq, Repr

/-- `POST /generate-itinerary` (src/main.py, lines 55–92): FastAPI
rejects a request violating the `TravelRequest` constraints with a 422
before the handler runs; otherwise the handler persists the initial
Processing record and schedules the background task.  `scheduled` records
whether `background_tasks.add_task` was reached. -/
def generateItineraryEndpoint (st : Store) (jobId destination : String)
    (durationDays : Int) (now : DateTime) : CreateOutcome :=
  if travelRequestValid destination durationDays then
    match createDocument jobId (initialFields destination durationDays now) st with
    | .error e => ⟨st, .serverError ("Failed to process request: " ++ e), false⟩
    | .ok st2 => ⟨st2, .accepted jobId, true⟩
  else
    ⟨st, .validationRejected, false⟩

inductive StatusResponse where
  | ok (document : VFields)
  | httpError (status : Nat) (detail : String)
  deriving DecidableEq, Repr

/-- `GET /job-status/{job_id}` (src/main.py, lines 95–110): a missing id
raises `HTTPException(404, "Job ID not found")` inside the `try`, which
the handler's own `except Exception` catches and re-raises as
`HTTPException(500, f"Failed to retrieve job status: {str(e)}")`, with
`str` of the 404 exception rendering as `404: Job ID not found`. -/
def getJobStatusEndpoint (st : Store) (jobId : String) : StatusResponse :=
  match getDocument jobId st with
  | some document => .ok document
  | none => .httpError 500 "Failed to retrieve job status: 404: Job ID not found"

instance {ε α : Type} [DecidableEq ε] [DecidableEq α] :
    DecidableEq (Except ε α)
  | .ok a, .ok b =>
    if h : a = b then .isTrue (by rw [h])
    else .isFalse (by intro hh; injection hh; contradiction)
  | .ok _, .error _ => .isFalse (by intro h; exact Except.noConfusion h)
  | .error _, .ok _ => .isFalse (by intro h; exact Except.noConfusion h)
  | .error e, .error f =>
    if h : e = f then .isTrue (by rw [h])
    else .isFalse (by intro hh; injection hh; contradiction)

/-! ### Concrete fixtures used by witnesses and counterexamples -/

/-- Three well-formed activities covering the canonical slots. -/
def actsOk : List Activity :=
  [⟨"Morning", "Visit the museum", "Louvre"⟩,
   ⟨"Afternoon", "Walk the gardens", "Tuileries"⟩,
   ⟨"Evening", "Dinner cruise", "Seine"⟩]

def goodDay (i : Nat) : DayItinerary :=
  ⟨i, "Highlights", actsOk⟩

/-- Day 1 has a blank theme (check 4); day 2 has day number 5 (check 3). -/
def cexDays : List DayItinerary :=
  [⟨1, "", actsOk⟩, ⟨5, "B", actsOk⟩]

example : validateItinerary cexDays 2 = .error (.missingTheme 1) := by decide
example : specOrderReason cexDays 2 = some (.dayMismatch 2 5) := by decide
example : codeOrderReason cexDays 2 = some (.missingTheme 1) := by decide
example : validateItinerary [goodDay 1, goodDay 2] 2 = .ok () := by decide
example : allChecksB [goodDay 1, goodDay 2] 2 = true := by decide

/-- JSON content of a well-formed one-day provider response. -/
def goodActivityJson (t : String) : Value :=
  .doc (.cons "time" (.str t) (.cons "description" (.str "See things")
    (.cons "location" (.str "Town") .nil)))

def goodDayJson : Value :=
  .doc (.cons "day" (.int 1) (.cons "theme" (.str "Highlights")
    (.cons "activities"
      (.list (.cons (goodActivityJson "Morning")
        (.cons (goodActivityJson "Afternoon")
          (.cons (goodActivityJson "Evening") .nil)))) .nil)))

def goodJsonContent : GenContent :=
  .jsonVal (.doc (.cons "itinerary" (.list (.cons goodDayJson .nil)) .nil))

def goodParsedDay : DayItinerary :=
  ⟨1, "Highlights",
    [⟨"Morning", "See things", "Town"⟩, ⟨"Afternoon", "See things", "Town"⟩,
     ⟨"Evening", "See things", "Town"⟩]⟩

example : handleSuccess goodJsonContent = .ok [goodParsedDay] := by rfl

/-- Rate-limited on the first two attempts, success on the third. -/
def rlTwiceResponses : Nat → Response :=
  fun n => if n < 2 then .rateLimited else .success goodJsonContent

example : (generateItinerary rlTwiceResponses).delays = [1, 2] := by decide
example : (generateItinerary rlTwiceResponses).attempts = 3 := by decide
example : (generateItinerary rlTwiceResponses).result = .ok [goodParsedDay] := by rfl

example : (generateItinerary (fun _ => .rateLimited)).result =
    .error .rateLimitExhausted := by rfl
example : (generateItinerary (fun _ => .rateLimited)).attempts = 3 := by decide
example : (generateItinerary (fun _ => .apiError 500 "boom")).attempts = 1 := by decide

/-! ### Validator lemmas -/

/-- One day passes every one of its per-day checks. -/
def dayOkB (i : Nat) (d : DayItinerary) : Bool :=
  (d.day == i) && !strBlank d.theme && !d.activities.isEmpty &&
    (missingTimes d.activities).isEmpty &&
    d.activities.all (fun a => !strBlank a.description && !strBlank a.location)

theorem validateActivities_ok_iff (i : Nat) (acts : List Activity) :
    validateActivities i acts = .ok () ↔
      acts.all (fun a => !strBlank a.description && !strBlank a.location) = true := by
  induction acts with
  | nil => simp [validateActivities]
  | cons a rest ih =>
    simp only [validateActivities, List.all_cons]
    by_cases h1 : strBlank a.description
    · simp [h1]
    · by_cases h2 : strBlank a.location
      · simp [h1, h2]
      · simp [h1, h2, ih]

theorem validateDays_ok_iff (l : List DayItinerary) (i : Nat) :
    validateDays l i = .ok () ↔
      (List.enumFrom i l).all (fun p => dayOkB p.1 p.2) = true := by
  induction l generalizing i with
  | nil => simp [validateDays, List.enumFrom]
  | cons d rest ih =>
    simp only [validateDays, List.enumFrom, List.all_cons]
    by_cases h1 : d.day = i
    · by_cases h2 : strBlank d.theme
      · simp [dayOkB, h1, h2]
      · by_cases h3 : d.activities.isEmpty
        · simp [dayOkB, h1, h2, h3]
        · by_cases h4 : (missingTimes d.activities).isEmpty
          · rcases hva : validateActivities i d.activities with e | u
            · have hne : ¬ validateActivities i d.activities = .ok () := by
                simp [hva]
              have hall := (validateActivities_ok_iff i d.activities).not.mp hne
              simp only [Bool.not_eq_true] at hall
              simp [dayOkB, h1, h2, h3, h4, hva, hall]
            · cases u
              have hall := (validateActivities_ok_iff i d.activities).mp hva
              simp [dayOkB, h1, h2, h3, h4, hva, hall, ih]
          · simp [dayOkB, h1, h2, h3, h4]
    · simp [dayOkB, h1]

theorem all_enumFrom_snd {α : Type} (l : List α) (i : Nat) (f : α → Bool) :
    (List.enumFrom i l).all (fun p => f p.2) = l.all f := by
  induction l generalizing i with
  | nil => rfl
  | cons a rest ih => simp [List.enumFrom, ih]

theorem enumFrom_all_and {α : Type} (l : List α) (i : Nat)
    (f g : Nat × α → Bool) :
    (List.enumFrom i l).all (fun p => f p && g p) =
      ((List.enumFrom i l).all f && (List.enumFrom i l).all g) := by
  induction l generalizing i with
  | nil => rfl
  | cons a rest ih =>
    simp only [List.enumFrom, List.all_cons, ih]
    cases f (i, a) <;> cases g (i, a) <;>
      cases (List.enumFrom (i + 1) rest).all f <;> simp

theorem enumAll_theme (cand : List DayItinerary) (i : Nat) :
    (List.enumFrom i cand).all (fun p => !strBlank p.2.theme) =
      checkThemesB cand := by
  induction cand generalizing i with
  | nil => rfl
  | cons d rest ih =>
    simp only [List.enumFrom, List.all_cons, ih (i + 1)]
    rfl

theorem enumAll_hasActs (cand : List DayItinerary) (i : Nat) :
    (List.enumFrom i cand).all (fun p => !p.2.activities.isEmpty) =
      checkHasActivitiesB cand := by
  induction cand generalizing i with
  | nil => rfl
  | cons d rest ih =>
    simp only [List.enumFrom, List.all_cons, ih (i + 1)]
    rfl

theorem enumAll_slots (cand : List DayItinerary) (i : Nat) :
    (List.enumFrom i cand).all (fun p => (missingTimes p.2.activities).isEmpty) =
      checkSlotsB cand := by
  induction cand generalizing i with
  | nil => rfl
  | cons d rest ih =>
    simp only [List.enumFrom, List.all_cons, ih (i + 1)]
    rfl

theorem enumAll_fields (cand : List DayItinerary) (i : Nat) :
    (List.enumFrom i cand).all
        (fun p => p.2.activities.all
          (fun a => !strBlank a.description && !strBlank a.location)) =
      checkFieldsB cand := by
  induction cand generalizing i with
  | nil => rfl
  | cons d rest ih =>
    simp only [List.enumFrom, List.all_cons, ih (i + 1)]
    rfl

/-- The success path of the validator coincides with the conjunction of
the seven declarative checks of §4.3. -/
theorem validate_ok_iff_allChecks (cand : List DayItinerary) (n : Nat) :
    validateItinerary cand n = .ok () ↔ allChecksB cand n = true := by
  simp only [validateItinerary, allChecksB]
  by_cases h1 : cand.isEmpty
  · simp [h1]
  · by_cases h2 : cand.length = n
    · rw [if_neg h1, if_neg (fun hh => hh h2)]
      rw [validateDays_ok_iff]
      simp only [dayOkB, enumFrom_all_and, enumAll_theme, enumAll_hasActs,
        enumAll_slots, enumAll_fields]
      have hdn : (List.enumFrom 1 cand).all (fun p => p.2.day == p.1) =
          checkDayNumbersB cand := rfl
      rw [hdn]
      simp only [Bool.and_eq_true]
      simp [h1, h2, and_assoc]
    · simp [h1, h2]

theorem validateActivities_err (i : Nat) (acts : List Activity) :
    errOf (validateActivities i acts) =
      ((actChecks i acts).find? (fun c => c.1)).map (fun c => c.2) := by
  induction acts with
  | nil => rfl
  | cons a rest ih =>
    simp only [validateActivities, actChecks]
    by_cases h1 : strBlank a.description
    · simp [errOf, h1, List.find?]
    · by_cases h2 : strBlank a.location
      · simp [errOf, h1, h2, List.find?]
      · simp only [h1, h2, if_false, Bool.false_eq_true]
        rw [List.find?_cons_of_neg _ (by simp [h1]),
          List.find?_cons_of_neg _ (by simp [h2])]
        exact ih

theorem validateDays_err (l : List DayItinerary) (i : Nat) :
    errOf (validateDays l i) =
      ((allDayChecks i l).find? (fun c => c.1)).map (fun c => c.2) := by
  induction l generalizing i with
  | nil => rfl
  | cons d rest ih =>
    simp only [validateDays, allDayChecks, dayChecks, List.cons_append,
      List.nil_append]
    by_cases h1 : d.day = i
    · rw [List.find?_cons_of_neg _ (by simp [h1])]
      by_cases h2 : strBlank d.theme
      · rw [if_neg (fun hh => hh h1), if_pos h2,
          List.find?_cons_of_pos _ (by simp [h2])]
        rfl
      · rw [List.find?_cons_of_neg _ (by simp [h2])]
        by_cases h3 : d.activities.isEmpty
        · rw [if_neg (fun hh => hh h1), if_neg (by simp [h2]), if_pos h3,
            List.find?_cons_of_pos _ (by simp [h3])]
          rfl
        · rw [List.find?_cons_of_neg _ (by simp [h3])]
          by_cases h4 : (missingTimes d.activities).isEmpty
          · rw [List.find?_cons_of_neg _ (by simp [h4])]
            rw [if_neg (fun hh => hh h1), if_neg (by simp [h2]),
              if_neg (by simp [h3]), if_neg (by simp [h4])]
            rw [List.find?_append]
            rcases hva : validateActivities i d.activities with e | u
            · have he := validateActivities_err i d.activities
              rw [hva] at he
              rcases hfind : (actChecks i d.activities).find? (fun c => c.1) with
                _ | c
              · rw [hfind] at he
                exact absurd he.symm (by simp [errOf])
              · rw [hfind] at he
                simp only [errOf, Option.map_some] at he ⊢
                rw [hfind]
                simpa using he
            · cases u
              have he := validateActivities_err i d.activities
              rw [hva] at he
              rcases hfind : (actChecks i d.activities).find? (fun c => c.1) with
                _ | c
              · rw [hfind]
                exact ih (i + 1)
              · rw [hfind] at he
                exact absurd he (by simp [errOf])
          · rw [if_neg (fun hh => hh h1), if_neg (by simp [h2]),
              if_neg (by simp [h3]), if_pos (by simp [h4]),
              List.find?_cons_of_pos _ (by simp [h4])]
            rfl
    · rw [if_pos h1, List.find?_cons_of_pos _ (by simp [h1])]
      rfl

/-- On every input the validator's outcome is: success exactly when all
seven checks hold, and otherwise the error of the first failing check in
the code's per-day traversal order. -/
theorem validate_err_eq_codeOrder (cand : List DayItinerary) (n : Nat) :
    errOf (validateItinerary cand n) = codeOrderReason cand n := by
  simp only [validateItinerary, codeOrderReason]
  by_cases h1 : cand.isEmpty
  · simp [errOf, h1]
  · by_cases h2 : cand.length = n
    · rw [if_neg h1, if_neg (fun hh => hh h2), if_neg h1,
        if_neg (fun hh => hh h2)]
      exact validateDays_err cand 1
    · simp [errOf, h1, h2]

/-- C2 (counterexample): the validator does not report the first failing
check of the spec's listed order 1–7.  With day 1's theme blank (check 4)
and day 2's `day` value 5 (check 3), the spec order picks the
day-numbering mismatch at position 2, but the code — which checks day 1
completely before looking at day 2 — reports day 1's missing theme. -/
theorem claim_C2_counterexample :
    ¬ ((validateItinerary cexDays 2 = .ok () ↔ allChecksB cexDays 2 = true) ∧
       errOf (validateItinerary cexDays 2) = specOrderReason cexDays 2) := by
  intro h
  exact absurd h.2 (by decide)

/-- C2 (amended): validation succeeds iff all seven checks of §4.3 hold,
and on any failing input the reported reason is the first failing check
in the code's traversal order — global checks 1 and 2 first, then each
day checked completely (day number, theme, has-activities, canonical
slots, per-activity description/location) before the next day; a
day-number mismatch at position i is reported naming i and the offending
day value. -/
theorem claim_C2_amended :
    ∀ (cand : List DayItinerary) (n : Nat),
      (validateItinerary cand n = .ok () ↔ allChecksB cand n = true) ∧
      errOf (validateItinerary cand n) = codeOrderReason cand n :=
  fun cand n =>
    ⟨validate_ok_iff_allChecks cand n, validate_err_eq_codeOrder cand n⟩

/-! ### Consequences of a successful validation (for the C8 invariant) -/

theorem validateDays_ok_day (l : List DayItinerary) (i : Nat)
    (h : validateDays l i = .ok ()) :
    ∀ j (hj : j < l.length), (l.get ⟨j, hj⟩).day = i + j := by
  induction l generalizing i with
  | nil => intro j hj; exact absurd hj (by simp)
  | cons d rest ih =>
    simp only [validateDays] at h
    by_cases h1 : d.day = i
    · rw [if_neg (fun hh => hh h1)] at h
      by_cases h2 : strBlank d.theme
      · rw [if_pos h2] at h; exact absurd h (by simp)
      · rw [if_neg h2] at h
        by_cases h3 : d.activities.isEmpty
        · rw [if_pos h3] at h; exact absurd h (by simp)
        · rw [if_neg h3] at h
          by_cases h4 : (missingTimes d.activities).isEmpty
          · rw [if_neg (not_not_intro h4)] at h
            rcases hva : validateActivities i d.activities with e | u
            · rw [hva] at h; exact absurd h (by simp)
            · rw [hva] at h
              intro j hj
              cases j with
              | zero => simpa using h1
              | succ j =>
                have hjr : j < rest.length := Nat.lt_of_succ_lt_succ (by simpa using hj)
                have hrec := ih (i + 1) h j hjr
                show (rest.get ⟨j, hjr⟩).day = i + (j + 1)
                rw [hrec]
                omega
          · rw [if_pos (by simpa using h4)] at h; exact absurd h (by simp)
    · rw [if_pos h1] at h; exact absurd h (by simp)

theorem validate_ok_days (cand : List DayItinerary) (n : Nat)
    (h : validateItinerary cand n = .ok ()) : validateDays cand 1 = .ok () := by
  simp only [validateItinerary] at h
  by_cases h1 : cand.isEmpty
  · rw [if_pos h1] at h; exact absurd h (by simp)
  · rw [if_neg h1] at h
    by_cases h2 : cand.length = n
    · rwa [if_neg (fun hh => hh h2)] at h
    · rw [if_pos h2] at h; exact absurd h (by simp)

theorem validate_ok_length (cand : List DayItinerary) (n : Nat)
    (h : validateItinerary cand n = .ok ()) : cand.length = n := by
  have hall := (validate_ok_iff_allChecks cand n).mp h
  simp only [allChecksB, Bool.and_eq_true, beq_iff_eq] at hall
  exact hall.1.1.1.1.1.2

/-! ### Generation Client lemmas -/

/-- The sleep inserted before the retry that follows attempt `a`. -/
def backoffDelay (a : Nat) : Nat :=
  retryDelay * 2 ^ a

theorem generateLoop_attempts_le (r : Nat → Response) :
    ∀ (fuel attempt : Nat) (delays : List Nat),
      (generateLoop r fuel attempt delays).attempts ≤ attempt + fuel := by
  intro fuel
  induction fuel with
  | zero => intro attempt delays; simp [generateLoop]
  | succ fuel ih =>
    intro attempt delays
    rcases hr : r attempt with content | _ | _ | msg | ⟨status, body⟩
    · rcases hs : handleSuccess content with itin | e
      · simp [generateLoop, hr, hs]
      · simp [generateLoop, hr, hs]
    · by_cases hlt : attempt < maxRetries - 1
      · have := ih (attempt + 1) (delays ++ [retryDelay * 2 ^ attempt])
        simp [generateLoop, hr, hlt]
        omega
      · simp [generateLoop, hr, hlt]
    · by_cases hlt : attempt < maxRetries - 1
      · have := ih (attempt + 1) (delays ++ [retryDelay * 2 ^ attempt])
        simp [generateLoop, hr, hlt]
        omega
      · simp [generateLoop, hr, hlt]
    · by_cases hlt : attempt < maxRetries - 1
      · have := ih (attempt + 1) (delays ++ [retryDelay * 2 ^ attempt])
        simp [generateLoop, hr, hlt]
        omega
      · simp [generateLoop, hr, hlt]
    · simp [generateLoop, hr]

theorem generateLoop_prior_retryable (r : Nat → Response) :
    ∀ (fuel attempt : Nat) (delays : List Nat) (i : Nat), attempt ≤ i →
      i + 1 < (generateLoop r fuel attempt delays).attempts →
      retryable (r i) = true := by
  intro fuel
  induction fuel with
  | zero =>
    intro attempt delays i hle hi
    simp [generateLoop] at hi
    omega
  | succ fuel ih =>
    intro attempt delays i hle hi
    rcases hr : r attempt with content | _ | _ | msg | ⟨status, body⟩
    · rcases hs : handleSuccess content with itin | e <;>
        simp [generateLoop, hr, hs] at hi <;> omega
    · by_cases hlt : attempt < maxRetries - 1
      · simp only [generateLoop, hr, if_pos hlt] at hi
        rcases Nat.eq_or_lt_of_le hle with heq | hgt
        · subst heq; simp [hr, retryable]
        · exact ih (attempt + 1) _ i hgt hi
      · simp [generateLoop, hr, hlt] at hi; omega
    · by_cases hlt : attempt < maxRetries - 1
      · simp only [generateLoop, hr, if_pos hlt] at hi
        rcases Nat.eq_or_lt_of_le hle with heq | hgt
        · subst heq; simp [hr, retryable]
        · exact ih (attempt + 1) _ i hgt hi
      · simp [generateLoop, hr, hlt] at hi; omega
    · by_cases hlt : attempt < maxRetries - 1
      · simp only [generateLoop, hr, if_pos hlt] at hi
        rcases Nat.eq_or_lt_of_le hle with heq | hgt
        · subst heq; simp [hr, retryable]
        · exact ih (attempt + 1) _ i hgt hi
      · simp [generateLoop, hr, hlt] at hi; omega
    · simp [generateLoop, hr] at hi; omega

theorem generateLoop_apiError_stops (r : Nat → Response) :
    ∀ (fuel attempt : Nat) (delays : List Nat) (i status : Nat) (body : String),
      attempt ≤ i → i < (generateLoop r fuel attempt delays).attempts →
      r i = .apiError status body →
      (generateLoop r fuel attempt delays).attempts = i + 1 ∧
      (generateLoop r fuel attempt delays).result = .error (.apiError status body) := by
  intro fuel
  induction fuel with
  | zero =>
    intro attempt delays i status body hle hi hr
    simp [generateLoop] at hi
    omega
  | succ fuel ih =>
    intro attempt delays i status body hle hi hr
    rcases hra : r attempt with content | _ | _ | msg | ⟨s2, b2⟩
    · rcases Nat.eq_or_lt_of_le hle with heq | hgt
      · subst heq; rw [hra] at hr; exact absurd hr (by simp)
      · rcases hs : handleSuccess content with itin | e <;>
          simp [generateLoop, hra, hs] at hi <;> omega
    · by_cases hlt : attempt < maxRetries - 1
      · simp only [generateLoop, hra, if_pos hlt] at hi ⊢
        rcases Nat.eq_or_lt_of_le hle with heq | hgt
        · subst heq; rw [hra] at hr; exact absurd hr (by simp)
        · exact ih (attempt + 1) _ i status body hgt hi hr
      · simp [generateLoop, hra, hlt] at hi
        have heq : i = attempt := by omega
        rw [heq] at hr; rw [hra] at hr; exact absurd hr (by simp)
    · by_cases hlt : attempt < maxRetries - 1
      · simp only [generateLoop, hra, if_pos hlt] at hi ⊢
        rcases Nat.eq_or_lt_of_le hle with heq | hgt
        · subst heq; rw [hra] at hr; exact absurd hr (by simp)
        · exact ih (attempt + 1) _ i status body hgt hi hr
      · simp [generateLoop, hra, hlt] at hi
        have heq : i = attempt := by omega
        rw [heq] at hr; rw [hra] at hr; exact absurd hr (by simp)
    · by_cases hlt : attempt < maxRetries - 1
      · simp only [generateLoop, hra, if_pos hlt] at hi ⊢
        rcases Nat.eq_or_lt_of_le hle with heq | hgt
        · subst heq; rw [hra] at hr; exact absurd hr (by simp)
        · exact ih (attempt + 1) _ i status body hgt hi hr
      · simp [generateLoop, hra, hlt] at hi
        have heq : i = attempt := by omega
        rw [heq] at hr; rw [hra] at hr; exact absurd hr (by simp)
    · simp [generateLoop, hra] at hi ⊢
      have heq : i = attempt := by omega
      rw [heq] at hr; rw [hra] at hr
      injection hr with h1 h2
      subst h1; subst h2
      exact ⟨by omega, rfl, rfl⟩

theorem generateLoop_exhaust (r : Nat → Response) :
    ∀ (fuel attempt : Nat) (delays : List Nat),
      attempt + fuel = 3 →
      (∀ i, attempt ≤ i → i < 3 → retryable (r i) = true) →
      (generateLoop r fuel attempt delays).attempts = 3 ∧
      ∃ e, (generateLoop r fuel attempt delays).result = .error e := by
  intro fuel
  induction fuel with
  | zero =>
    intro attempt delays hsum hall
    refine ⟨by simp [generateLoop]; omega, ⟨.exhausted, by simp [generateLoop]⟩⟩
  | succ fuel ih =>
    intro attempt delays hsum hall
    have hret := hall attempt (Nat.le_refl _) (by omega)
    rcases hr : r attempt with content | _ | _ | msg | ⟨s, b⟩ <;>
      rw [hr] at hret <;> simp [retryable] at hret
    · by_cases hlt : attempt < maxRetries - 1
      · simp only [generateLoop, hr, if_pos hlt]
        exact ih (attempt + 1) _ (by omega) (fun i hi1 hi2 => hall i (by omega) hi2)
      · simp only [generateLoop, hr]
        rw [if_neg hlt]
        have h3 : attempt = 2 := by simp [maxRetries] at hlt; omega
        subst h3
        exact ⟨rfl, ⟨.rateLimitExhausted, rfl⟩⟩
    · by_cases hlt : attempt < maxRetries - 1
      · simp only [generateLoop, hr, if_pos hlt]
        exact ih (attempt + 1) _ (by omega) (fun i hi1 hi2 => hall i (by omega) hi2)
      · simp only [generateLoop, hr]
        rw [if_neg hlt]
        have h3 : attempt = 2 := by simp [maxRetries] at hlt; omega
        subst h3
        exact ⟨rfl, ⟨.timeoutExhausted, rfl⟩⟩
    · by_cases hlt : attempt < maxRetries - 1
      · simp only [generateLoop, hr, if_pos hlt]
        exact ih (attempt + 1) _ (by omega) (fun i hi1 hi2 => hall i (by omega) hi2)
      · simp only [generateLoop, hr]
        rw [if_neg hlt]
        have h3 : attempt = 2 := by simp [maxRetries] at hlt; omega
        subst h3
        exact ⟨rfl, ⟨.networkExhausted msg, rfl⟩⟩

theorem generateLoop_delays (r : Nat → Response) :
    ∀ (fuel attempt : Nat), attempt ≤ 2 → attempt + fuel = 3 →
      (generateLoop r fuel attempt ((List.range attempt).map backoffDelay)).delays =
        (List.range
          ((generateLoop r fuel attempt
            ((List.range attempt).map backoffDelay)).attempts - 1)).map
          backoffDelay := by
  intro fuel
  induction fuel with
  | zero => intro attempt h2 hsum; omega
  | succ fuel ih =>
    intro attempt h2 hsum
    have harg : (List.range attempt).map backoffDelay ++
        [retryDelay * 2 ^ attempt] = (List.range (attempt + 1)).map backoffDelay := by
      simp [List.range_succ, backoffDelay]
    rcases hr : r attempt with content | _ | _ | msg | ⟨s, b⟩
    · rcases hs : handleSuccess content with itin | e <;>
        simp [generateLoop, hr, hs]
    · by_cases hlt : attempt < maxRetries - 1
      · simp only [generateLoop, hr, if_pos hlt]
        rw [harg]
        exact ih (attempt + 1) (by simp [maxRetries] at hlt; omega) (by omega)
      · have ha2 : attempt = 2 := by simp [maxRetries] at hlt; omega
        subst ha2
        simp [generateLoop, hr, hlt]
    · by_cases hlt : attempt < maxRetries - 1
      · simp only [generateLoop, hr, if_pos hlt]
        rw [harg]
        exact ih (attempt + 1) (by simp [maxRetries] at hlt; omega) (by omega)
      · have ha2 : attempt = 2 := by simp [maxRetries] at hlt; omega
        subst ha2
        simp [generateLoop, hr, hlt]
    · by_cases hlt : attempt < maxRetries - 1
      · simp only [generateLoop, hr, if_pos hlt]
        rw [harg]
        exact ih (attempt + 1) (by simp [maxRetries] at hlt; omega) (by omega)
      · have ha2 : attempt = 2 := by simp [maxRetries] at hlt; omega
        subst ha2
        simp [generateLoop, hr, hlt]
    · simp [generateLoop, hr]

/-- C3: at most 3 attempts are made; every attempt before the last failed
with a retryable condition (rate limit, timeout, network error); a
non-success non-429 status reached at any attempt ends the call there
with the terminal `OpenAI API error` failure; and three retryable
failures exhaust the budget with a terminal failure and no fourth
attempt. -/
theorem claim_C3 :
    ∀ (responses : Nat → Response),
      (generateItinerary responses).attempts ≤ 3 ∧
      (∀ i, i + 1 < (generateItinerary responses).attempts →
        retryable (responses i) = true) ∧
      (∀ i status body, i < (generateItinerary responses).attempts →
        responses i = .apiError status body →
        (generateItinerary responses).attempts = i + 1 ∧
        (generateItinerary responses).result = .error (.apiError status body)) ∧
      ((∀ i, i < 3 → retryable (responses i) = true) →
        (generateItinerary responses).attempts = 3 ∧
        ∃ e, (generateItinerary responses).result = .error e) := by
  intro responses
  refine ⟨generateLoop_attempts_le responses 3 0 [],
    fun i hi => generateLoop_prior_retryable responses 3 0 [] i (Nat.zero_le i) hi,
    fun i status body hi hr =>
      generateLoop_apiError_stops responses 3 0 [] i status body (Nat.zero_le i) hi hr,
    fun hall => generateLoop_exhaust responses 3 0 [] rfl (fun i _ h2 => hall i h2)⟩

/-- C6: the delay before the retry that follows attempt `a` (counted from
0) is `retry_delay * 2 ^ a`, so the delay list is always an initial
segment of the powers of two times the base delay and is strictly
increasing; with rate-limit responses on attempts 1 and 2 and a parsable
success on attempt 3, generation succeeds with exactly the two delays
`[1, 2]`. -/
theorem claim_C6 :
    ∀ (responses : Nat → Response),
      (generateItinerary responses).delays =
        (List.range ((generateItinerary responses).attempts - 1)).map backoffDelay ∧
      List.Chain' (· < ·) (generateItinerary responses).delays ∧
      (∀ content itinerary,
        responses 0 = .rateLimited → responses 1 = .rateLimited →
        responses 2 = .success content → handleSuccess content = .ok itinerary →
        (generateItinerary responses).result = .ok itinerary ∧
        (generateItinerary responses).delays = [backoffDelay 0, backoffDelay 1] ∧
        (generateItinerary responses).delays.length = 2 ∧
        backoffDelay 0 < backoffDelay 1) := by
  intro responses
  have hdel : (generateItinerary responses).delays =
      (List.range ((generateItinerary responses).attempts - 1)).map backoffDelay :=
    generateLoop_delays responses 3 0 (by omega) rfl
  refine ⟨hdel, ?_, ?_⟩
  · rw [hdel]
    refine List.Pairwise.chain' (List.pairwise_map.mpr ?_)
    refine (List.pairwise_lt_range _).imp ?_
    intro a b hab
    simpa [backoffDelay, retryDelay] using Nat.pow_lt_pow_right (by omega) hab
  · intro content itinerary h0 h1 h2 hs
    refine ⟨?_, ?_, ?_, ?_⟩ <;>
      simp [generateItinerary, generateLoop, maxRetries, retryDelay,
        backoffDelay, h0, h1, h2, hs]

/-- C7: a 200 response whose body is not JSON, lacks the `itinerary` key,
or fails the structural parse ends the call immediately with that
terminal failure — it is not retried even with attempt budget left, and
it is not a retryable (transport-level) condition. -/
theorem claim_C7 (responses : Nat → Response) (i : Nat) (content : GenContent)
    (e : GenFailure) (hi : i < maxRetries)
    (hprev : ∀ j, j < i → retryable (responses j) = true)
    (hres : responses i = .success content)
    (he : handleSuccess content = .error e) :
    (generateItinerary responses).result = .error e ∧
    (generateItinerary responses).attempts = i + 1 ∧
    retryable (responses i) = false := by
  simp only [maxRetries] at hi
  interval_cases i
  · refine ⟨?_, ?_, ?_⟩ <;>
      simp [generateItinerary, generateLoop, maxRetries, hres, he, retryable]
  · have hr0 := hprev 0 (by omega)
    rcases h0 : responses 0 with c0 | _ | _ | m0 | ⟨s0, b0⟩ <;>
      rw [h0] at hr0 <;> simp [retryable] at hr0 <;>
      refine ⟨?_, ?_, ?_⟩ <;>
      simp [generateItinerary, generateLoop, maxRetries, h0, hres, he, retryable]
  · have hr0 := hprev 0 (by omega)
    have hr1 := hprev 1 (by omega)
    rcases h0 : responses 0 with c0 | _ | _ | m0 | ⟨s0, b0⟩ <;>
      rw [h0] at hr0 <;> simp [retryable] at hr0 <;>
      rcases h1 : responses 1 with c1 | _ | _ | m1 | ⟨s1, b1⟩ <;>
      rw [h1] at hr1 <;> simp [retryable] at hr1 <;>
      refine ⟨?_, ?_, ?_⟩ <;>
      simp [generateItinerary, generateLoop, maxRetries, h0, h1, hres, he,
        retryable]

/-- The C7 scenario at a concrete input: a not-JSON body on the first
attempt ends the call at once with the `Invalid JSON response` failure. -/
def badBodyResponses : Nat → Response := fun _ => .success .notJson

theorem claim_C7_witness :
    (generateItinerary badBodyResponses).result =
      .error (.invalidJson "Invalid JSON response from OpenAI: JSONDecodeError") ∧
    (generateItinerary badBodyResponses).attempts = 0 + 1 ∧
    retryable (badBodyResponses 0) = false :=
  claim_C7 badBodyResponses 0 .notJson
    (.invalidJson "Invalid JSON response from OpenAI: JSONDecodeError")
    (by decide) (fun j hj => absurd hj (by omega)) rfl rfl

/-! ### Store lemmas -/

theorem lookup_set_self : ∀ (fs : VFields) (k : String) (v : Value),
    (fs.set k v).lookup k = some v
  | .nil, k, v => by simp [VFields.set, VFields.lookup]
  | .cons k2 v2 rest, k, v => by
    by_cases h : k2 = k
    · simp [VFields.set, VFields.lookup, h]
    · simp [VFields.set, VFields.lookup, h, lookup_set_self rest k v]

theorem lookup_set_ne : ∀ (fs : VFields) (k k2 : String) (v : Value),
    k ≠ k2 → (fs.set k v).lookup k2 = fs.lookup k2
  | .nil, k, k2, v, h => by simp [VFields.set, VFields.lookup, h]
  | .cons k3 v3 rest, k, k2, v, h => by
    by_cases h3 : k3 = k
    · simp [VFields.set, VFields.lookup, h3, h]
    · simp only [VFields.set, if_neg h3, VFields.lookup]
      by_cases h4 : k3 = k2
      · simp [h4]
      · simp [h4, lookup_set_ne rest k k2 v h]

theorem find_put_self (st : Store) (id : String) (doc : VFields) :
    (st.put id doc).find id = some doc := by
  induction st with
  | nil => simp [Store.put, Store.find]
  | cons e rest ih =>
    by_cases h : e.1 = id
    · simp [Store.put, Store.find, h]
    · simp [Store.put, Store.find, h, ih]

theorem lookup_prepareDoc : ∀ (fs : VFields) (k : String),
    (prepareDoc fs).lookup k = (fs.lookup k).map prepareVal
  | .nil, k => by simp [prepareDoc, VFields.lookup]
  | .cons k2 v rest, k => by
    by_cases h : k2 = k
    · simp [prepareDoc, VFields.lookup, h]
    · simp [prepareDoc, VFields.lookup, h, lookup_prepareDoc rest k]

theorem lookup_processDoc_id : ∀ (fs : VFields),
    (processDoc fs).lookup "_id" = none
  | .nil => by simp [processDoc, VFields.lookup]
  | .cons k v rest => by
    by_cases h : k = "_id"
    · simp [processDoc, h, lookup_processDoc_id rest]
    · simp [processDoc, VFields.lookup, h, lookup_processDoc_id rest]

theorem lookup_processDoc : ∀ (fs : VFields) (k : String), k ≠ "_id" →
    (processDoc fs).lookup k = (fs.lookup k).map processVal
  | .nil, k, h => by simp [processDoc, VFields.lookup]
  | .cons k2 v rest, k, h => by
    by_cases h2 : k2 = "_id"
    · subst h2
      have hne : "_id" ≠ k := fun hh => h hh.symm
      simp [processDoc, VFields.lookup, hne, lookup_processDoc rest k h]
    · simp only [processDoc, if_neg h2, VFields.lookup]
      by_cases h3 : k2 = k
      · simp [h3]
      · simp [h3, lookup_processDoc rest k h]

/-! ### C1: terminal-write behaviour of the background task -/

/-- The ordered terminal-write attempts of one background run. -/
def runTrace (responses : Nat → Response) (jobId : String) (days : Nat)
    (cOk fOk : Bool) (storeError : String) (nowC nowF : DateTime)
    (st : Store) : List WriteAttempt :=
  (generateAndSave responses jobId days cOk fOk storeError nowC nowF st).2

def now0 : DateTime := ⟨2024, 5, 10, 12, 0, 0, 0, none⟩

/-- A provider that always answers 200 with a well-formed one-day body. -/
def goodResponses : Nat → Response := fun _ => .success goodJsonContent

/-- C1 (counterexample): when generation and validation succeed but the
`mark_as_completed` write fails, the `except` block runs `mark_as_failed`
— a second terminal write attempt for the same job, so the run does not
perform exactly one terminal write attempt. -/
theorem claim_C1_counterexample :
    ¬ (∀ (responses : Nat → Response) (jobId : String) (days : Nat)
        (cOk fOk : Bool) (storeError : String) (nowC nowF : DateTime)
        (st : Store),
        (runTrace responses jobId days cOk fOk storeError nowC nowF st).length
          = 1) := by
  intro h
  exact absurd
    (h goodResponses "job-1" 1 false true "MongoDB unreachable" now0 now0 [])
    (by decide)

/-- C1 (amended): per run, `mark_as_completed` and `mark_as_failed` are
each attempted at most once; they are mutually exclusive except that a
failed `mark_as_completed` write is followed by exactly one
`mark_as_failed` attempt; and a failure of the `mark_as_failed` write
itself is only logged — nothing follows it.  The trace of terminal-write
attempts is always one of five shapes. -/
theorem claim_C1_amended :
    ∀ (responses : Nat → Response) (jobId : String) (days : Nat)
      (cOk fOk : Bool) (storeError : String) (nowC nowF : DateTime)
      (st : Store),
      runTrace responses jobId days cOk fOk storeError nowC nowF st
          = [.completedWrite true] ∨
      runTrace responses jobId days cOk fOk storeError nowC nowF st
          = [.failedWrite true] ∨
      runTrace responses jobId days cOk fOk storeError nowC nowF st
          = [.failedWrite false] ∨
      runTrace responses jobId days cOk fOk storeError nowC nowF st
          = [.completedWrite false, .failedWrite true] ∨
      runTrace responses jobId days cOk fOk storeError nowC nowF st
          = [.completedWrite false, .failedWrite false] := by
  intro responses jobId days cOk fOk storeError nowC nowF st
  unfold runTrace generateAndSave
  rcases hg : (generateItinerary responses).result with e | itin
  · unfold handleFailure
    cases fOk <;> simp
  · rcases hv : validateItinerary itin days with ve | u
    · unfold handleFailure
      cases fOk <;> simp [hv]
    · cases u
      cases cOk
      · unfold handleFailure
        cases fOk <;> simp [hv]
      · simp [hv]

/-! ### C9: the frame of `mark_as_failed` -/

/-- C9: `mark_as_failed` updates exactly `status`, `completedAt` and
`error` on the stored record; `destination`, `durationDays`, `createdAt`,
`jobId` and `itinerary` are untouched. -/
theorem claim_C9 (st : Store) (id err : String) (now : DateTime)
    (doc : VFields) (h : st.find id = some doc) :
    ∃ doc2, (markAsFailed id err now st).find id = some doc2 ∧
      doc2.lookup "destination" = doc.lookup "destination" ∧
      doc2.lookup "durationDays" = doc.lookup "durationDays" ∧
      doc2.lookup "createdAt" = doc.lookup "createdAt" ∧
      doc2.lookup "jobId" = doc.lookup "jobId" ∧
      doc2.lookup "itinerary" = doc.lookup "itinerary" ∧
      doc2.lookup "status" = some (.str "failed") ∧
      doc2.lookup "completedAt" = some (.str (isoformat now)) ∧
      doc2.lookup "error" = some (.str err) := by
  have hupd : markAsFailed id err now st =
      st.put id (((doc.set "status" (.str "failed")).set "completedAt"
        (.str (isoformat now))).set "error" (.str err)) := by
    unfold markAsFailed updateDocument
    rw [h]
    rfl
  refine ⟨((doc.set "status" (.str "failed")).set "completedAt"
    (.str (isoformat now))).set "error" (.str err), ?_, ?_, ?_, ?_, ?_, ?_,
    ?_, ?_, ?_⟩
  · rw [hupd]
    exact find_put_self st id _
  · rw [lookup_set_ne _ _ _ _ (by decide), lookup_set_ne _ _ _ _ (by decide),
      lookup_set_ne _ _ _ _ (by decide)]
  · rw [lookup_set_ne _ _ _ _ (by decide), lookup_set_ne _ _ _ _ (by decide),
      lookup_set_ne _ _ _ _ (by decide)]
  · rw [lookup_set_ne _ _ _ _ (by decide), lookup_set_ne _ _ _ _ (by decide),
      lookup_set_ne _ _ _ _ (by decide)]
  · rw [lookup_set_ne _ _ _ _ (by decide), lookup_set_ne _ _ _ _ (by decide),
      lookup_set_ne _ _ _ _ (by decide)]
  · rw [lookup_set_ne _ _ _ _ (by decide), lookup_set_ne _ _ _ _ (by decide),
      lookup_set_ne _ _ _ _ (by decide)]
  · rw [lookup_set_ne _ _ _ _ (by decide), lookup_set_ne _ _ _ _ (by decide),
      lookup_set_self]
  · rw [lookup_set_ne _ _ _ _ (by decide), lookup_set_self]
  · rw [lookup_set_self]

/-- A stored record as `create_document` leaves it, used to instantiate
the C9 frame theorem concretely. -/
def c9doc : VFields :=
  .cons "status" (.str "processing")
    (.cons "destination" (.str "Paris, France")
      (.cons "durationDays" (.int 3)
        (.cons "createdAt" (.str "2024-05-10T12:00:00")
          (.cons "completedAt" .null
            (.cons "itinerary" (.list .nil)
              (.cons "error" .null
                (.cons "_id" (.str "job-1")
                  (.cons "jobId" (.str "job-1") .nil))))))))

def c9store : Store := [("job-1", c9doc)]

theorem claim_C9_witness :
    ∃ doc2, (markAsFailed "job-1" "Failed to generate itinerary: boom" now0
        c9store).find "job-1" = some doc2 ∧
      doc2.lookup "destination" = c9doc.lookup "destination" ∧
      doc2.lookup "durationDays" = c9doc.lookup "durationDays" ∧
      doc2.lookup "createdAt" = c9doc.lookup "createdAt" ∧
      doc2.lookup "jobId" = c9doc.lookup "jobId" ∧
      doc2.lookup "itinerary" = c9doc.lookup "itinerary" ∧
      doc2.lookup "status" = some (.str "failed") ∧
      doc2.lookup "completedAt" = some (.str (isoformat now0)) ∧
      doc2.lookup "error" =
        some (.str "Failed to generate itinerary: boom") :=
  claim_C9 c9store "job-1" "Failed to generate itinerary: boom" now0 c9doc rfl

/-! ### C10: the store decode step and the create/get round trip -/

/-- C10: reading back decodes every string field (outside `_id`) that
parses as ISO-8601 into a datetime value and leaves other strings alone;
`_id` is always dropped while `jobId` is kept; hence a create-then-get
round trip returns a string field unchanged exactly when its content does
not parse as ISO-8601. -/
theorem claim_C10 (st : Store) (id k s : String) (data : VFields)
    (st2 : Store) (hcreate : createDocument id data st = .ok st2)
    (hk1 : k ≠ "_id") (hk2 : k ≠ "jobId")
    (hfield : data.lookup k = some (.str s)) :
    (∀ fs, (processDoc fs).lookup "_id" = none) ∧
    (∀ fs k2, k2 ≠ "_id" →
      (processDoc fs).lookup k2 = (fs.lookup k2).map processVal) ∧
    (∀ s2 d2, parseIsoValue s2 = some d2 → processVal (.str s2) = .dt d2) ∧
    (∀ s2, parseIsoValue s2 = none → processVal (.str s2) = .str s2) ∧
    (∃ doc2, getDocument id st2 = some doc2 ∧
      doc2.lookup "jobId" = some (processVal (.str id)) ∧
      (doc2.lookup k = some (.str s) ↔ isIsoDatetime s = false)) := by
  refine ⟨lookup_processDoc_id, lookup_processDoc,
    fun s2 d2 hp => by simp [processVal, hp],
    fun s2 hp => by simp [processVal, hp], ?_⟩
  unfold createDocument at hcreate
  rcases hfind : st.find id with _ | doc0
  · rw [hfind] at hcreate
    simp only [] at hcreate
    injection hcreate with hst2
    subst hst2
    refine ⟨processDoc (prepareDoc
      ((data.set "_id" (.str id)).set "jobId" (.str id))), ?_, ?_, ?_⟩
    · unfold getDocument
      rw [find_put_self]
    · rw [lookup_processDoc _ _ (by decide), lookup_prepareDoc,
        lookup_set_self]
      rfl
    · rw [lookup_processDoc _ _ hk1, lookup_prepareDoc,
        lookup_set_ne _ _ _ _ (fun hh => hk2 hh.symm),
        lookup_set_ne _ _ _ _ (fun hh => hk1 hh.symm), hfield]
      have hiso : isIsoDatetime s = (parseIsoValue s).isSome := rfl
      rcases hp : parseIsoValue s with _ | d
      · simp [processVal, prepareVal, hp, hiso]
      · simp [processVal, prepareVal, hp, hiso]
  · rw [hfind] at hcreate
    exact absurd hcreate (by simp)

def c10data : VFields := initialFields "2023-01-01" 3 now0

def c10store : Store :=
  [("job-1", prepareDoc
    ((c10data.set "_id" (.str "job-1")).set "jobId" (.str "job-1")))]

theorem claim_C10_witness :
    (∀ fs, (processDoc fs).lookup "_id" = none) ∧
    (∀ fs k2, k2 ≠ "_id" →
      (processDoc fs).lookup k2 = (fs.lookup k2).map processVal) ∧
    (∀ s2 d2, parseIsoValue s2 = some d2 → processVal (.str s2) = .dt d2) ∧
    (∀ s2, parseIsoValue s2 = none → processVal (.str s2) = .str s2) ∧
    (∃ doc2, getDocument "job-1" c10store = some doc2 ∧
      doc2.lookup "jobId" = some (processVal (.str "job-1")) ∧
      (doc2.lookup "destination" = some (.str "2023-01-01") ↔
        isIsoDatetime "2023-01-01" = false)) :=
  claim_C10 [] "job-1" "destination" "2023-01-01" c10data c10store rfl
    (by decide) (by decide) rfl

/-- The round trip at work: a destination that happens to spell a date is
returned as a datetime value, not as the string that was stored. -/
example :
    (getDocument "job-1" c10store).map (fun doc2 => doc2.lookup "destination")
      = some (some (.dt ⟨2023, 1, 1, 0, 0, 0, 0, none⟩)) := by decide

/-! ### C4: the status endpoint on a missing id -/

/-- C4 (code bug): for an id absent from the store the endpoint's own
`except Exception` catches the `HTTPException(404)` it just raised and
re-raises it as a 500, so the caller observes 500, not the not-found
status code; a present id returns the decoded record, and the read has no
effect on the store (`getDocument` is a pure function of it). -/
theorem claim_C4 (st : Store) (id : String) (h : st.find id = none) :
    getJobStatusEndpoint st id =
      .httpError 500 "Failed to retrieve job status: 404: Job ID not found" ∧
    (∀ st2 id2 doc, Store.find st2 id2 = some doc →
      getJobStatusEndpoint st2 id2 = .ok (processDoc doc)) := by
  constructor
  · unfold getJobStatusEndpoint getDocument
    rw [h]
  · intro st2 id2 doc h2
    unfold getJobStatusEndpoint getDocument
    rw [h2]

theorem claim_C4_witness :
    getJobStatusEndpoint [] "missing-job" =
      .httpError 500 "Failed to retrieve job status: 404: Job ID not found" ∧
    (∀ st2 id2 doc, Store.find st2 id2 = some doc →
      getJobStatusEndpoint st2 id2 = .ok (processDoc doc)) :=
  claim_C4 [] "missing-job" rfl

/-! ### C5: creation-time validation -/

/-- C5 (counterexample): an empty destination is not rejected —
`TravelRequest` constrains only `durationDays`, so the request with
destination `""` passes validation (and goes on to persist a Processing
record). -/
theorem claim_C5_counterexample :
    ¬ (∀ (destination : String) (durationDays : Int) (st : Store)
        (jobId : String) (now : DateTime),
        destination = "" →
        travelRequestValid destination durationDays = false ∧
        (generateItineraryEndpoint st jobId destination durationDays now).store
          = st) := by
  intro h
  exact absurd (h "" 3 [] "job-1" now0 rfl).1 (by decide)

/-- C5 (amended): create re-asserts `durationDays ∈ [1,30]` and rejects a
violation synchronously with nothing persisted and no background task
scheduled; `destination` is not checked for emptiness — any string,
including the empty one, passes, and a fresh valid request persists a
Processing record. -/
theorem claim_C5_amended :
    ∀ (destination : String) (durationDays : Int) (st : Store)
      (jobId : String) (now : DateTime),
      (travelRequestValid destination durationDays = true ↔
        0 < durationDays ∧ durationDays ≤ 30) ∧
      (travelRequestValid destination durationDays = false →
        generateItineraryEndpoint st jobId destination durationDays now =
          ⟨st, .validationRejected, false⟩) ∧
      (travelRequestValid destination durationDays = true →
        st.find jobId = none →
        ∃ st2,
          generateItineraryEndpoint st jobId destination durationDays now =
            ⟨st2, .accepted jobId, true⟩ ∧
          ∃ doc, st2.find jobId = some doc ∧
            doc.lookup "status" = some (.str "processing")) := by
  intro destination durationDays st jobId now
  refine ⟨by simp [travelRequestValid], ?_, ?_⟩
  · intro hinval
    unfold generateItineraryEndpoint
    rw [if_neg (by simp [hinval])]
  · intro hval hfresh
    unfold generateItineraryEndpoint createDocument
    rw [if_pos hval, hfresh]
    refine ⟨_, rfl,
      prepareDoc (((initialFields destination durationDays now).set "_id"
        (.str jobId)).set "jobId" (.str jobId)),
      find_put_self st jobId _, ?_⟩
    rw [lookup_prepareDoc,
      lookup_set_ne _ _ _ _ (by decide), lookup_set_ne _ _ _ _ (by decide)]
    rfl

/-! ### C8: the Completed/length invariant over the reachable states -/

/-- Length of the stored `itinerary` field, when it is a list. -/
def itinLength (doc : VFields) : Option Nat :=
  match doc.lookup "itinerary" with
  | some (.list items) => some items.length
  | _ => none

/-- The `day` values of the stored Day Plans, in order. -/
def dayValuesOf : VList → Option (List Int)
  | .nil => some []
  | .cons (.doc fs) rest =>
    match fs.lookup "day", dayValuesOf rest with
    | some (.int n), some more => some (n :: more)
    | _, _ => none
  | .cons _ _ => none

def itinDays (doc : VFields) : Option (List Int) :=
  match doc.lookup "itinerary" with
  | some (.list items) => dayValuesOf items
  | _ => none

/-- The §3 invariant on one stored job record. -/
def recordInvariant (doc : VFields) (days : Nat) : Prop :=
  (itinLength doc = some days ↔
    doc.lookup "status" = some (.str "completed")) ∧
  (doc.lookup "status" = some (.str "completed") →
    itinDays doc = some ((List.range days).map (fun j => Int.ofNat (j + 1))))

theorem updateDocument_found (id : String) (u : VFields) (st : Store)
    (doc : VFields) (h : st.find id = some doc) :
    updateDocument id u st = st.put id (doc.setAll (prepareDoc u)) := by
  unfold updateDocument
  rw [h]

theorem length_prepareListItems : ∀ (vl : VList),
    (prepareListItems vl).length = vl.length
  | .nil => rfl
  | .cons v rest => by
    rcases v with s | n | d | _ | items | fs <;>
      simp [prepareListItems, VList.length, length_prepareListItems rest]

theorem length_itineraryToVList (l : List DayItinerary) :
    (itineraryToVList l).length = l.length := by
  induction l with
  | nil => rfl
  | cons d rest ih => simp [itineraryToVList, VList.length, ih]; omega

theorem dayValues_serialize (l : List DayItinerary) :
    dayValuesOf (prepareListItems (itineraryToVList l)) =
      some (l.map (fun d => Int.ofNat d.day)) := by
  induction l with
  | nil => rfl
  | cons d rest ih =>
    simp only [itineraryToVList, prepareListItems, List.map_cons]
    rw [show prepareDoc d.toFields =
      .cons "day" (.int (Int.ofNat d.day)) (.cons "theme" (.str d.theme)
        (.cons "activities"
          (.list (prepareListItems (activitiesToVList d.activities))) .nil))
      from rfl]
    simp [dayValuesOf, VFields.lookup, ih]

theorem map_day_eq_range (itin : List DayItinerary) (days : Nat)
    (hlen : itin.length = days)
    (hd : ∀ j (hj : j < itin.length), (itin.get ⟨j, hj⟩).day = 1 + j) :
    itin.map (fun d => Int.ofNat d.day) =
      (List.range days).map (fun j => Int.ofNat (j + 1)) := by
  apply List.ext_get
  · simp [hlen]
  · intro n h1 h2
    simp only [List.get_eq_getElem, List.getElem_map, List.getElem_range]
    have hn : n < itin.length := by simpa using h1
    have := hd n hn
    simp only [List.get_eq_getElem] at this
    rw [this, Nat.add_comm]

/-- The record `create_document` stores for a fresh job, fully computed. -/
theorem created_record (st : Store) (jobId destination : String)
    (durationDays : Int) (now : DateTime) (hfresh : st.find jobId = none) :
    (generateItineraryEndpoint st jobId destination durationDays now).store =
      if travelRequestValid destination durationDays then
        st.put jobId (prepareDoc
          (((initialFields destination durationDays now).set "_id"
            (.str jobId)).set "jobId" (.str jobId)))
      else st := by
  unfold generateItineraryEndpoint createDocument
  by_cases hval : travelRequestValid destination durationDays
  · rw [if_pos hval, if_pos hval, hfresh]
  · rw [if_neg hval, if_neg hval]

theorem invariant_processing (doc : VFields) (days : Nat) (h1 : 1 ≤ days)
    (hit : doc.lookup "itinerary" = some (.list .nil))
    (hst : doc.lookup "status" = some (.str "processing")) :
    recordInvariant doc days := by
  constructor
  · constructor
    · intro h
      simp only [itinLength, hit, VList.length] at h
      injection h with h
      omega
    · intro h
      rw [hst] at h
      exact absurd h (by simp)
  · intro h
    rw [hst] at h
    exact absurd h (by simp)

theorem invariant_markAsFailed (st : Store) (id err : String) (now : DateTime)
    (doc : VFields) (days : Nat) (h : st.find id = some doc) (h1 : 1 ≤ days)
    (hit : doc.lookup "itinerary" = some (.list .nil)) :
    ∀ doc2, (markAsFailed id err now st).find id = some doc2 →
      recordInvariant doc2 days := by
  intro doc2 h2
  have hupd : markAsFailed id err now st =
      st.put id (((doc.set "status" (.str "failed")).set "completedAt"
        (.str (isoformat now))).set "error" (.str err)) := by
    unfold markAsFailed
    rw [updateDocument_found _ _ _ _ h]
    rfl
  rw [hupd, find_put_self] at h2
  injection h2 with h2
  subst h2
  have hst2 : (((doc.set "status" (.str "failed")).set "completedAt"
      (.str (isoformat now))).set "error" (.str err)).lookup "status" =
      some (.str "failed") := by
    rw [lookup_set_ne _ _ _ _ (by decide), lookup_set_ne _ _ _ _ (by decide),
      lookup_set_self]
  have hit2 : (((doc.set "status" (.str "failed")).set "completedAt"
      (.str (isoformat now))).set "error" (.str err)).lookup "itinerary" =
      some (.list .nil) := by
    rw [lookup_set_ne _ _ _ _ (by decide), lookup_set_ne _ _ _ _ (by decide),
      lookup_set_ne _ _ _ _ (by decide)]
    exact hit
  constructor
  · constructor
    · intro hx
      simp only [itinLength, hit2, VList.length] at hx
      injection hx with hx
      omega
    · intro hx
      rw [hst2] at hx
      exact absurd hx (by simp)
  · intro hx
    rw [hst2] at hx
    exact absurd hx (by simp)

theorem invariant_markAsCompleted (st : Store) (id : String)
    (itin : List DayItinerary) (now : DateTime) (doc : VFields) (days : Nat)
    (h : st.find id = some doc) (hv : validateItinerary itin days = .ok ()) :
    ∀ doc2, (markAsCompleted id itin now st).find id = some doc2 →
      recordInvariant doc2 days := by
  intro doc2 h2
  have hupd : markAsCompleted id itin now st =
      st.put id ((((doc.set "status" (.str "completed")).set "completedAt"
        (.str (isoformat now))).set "itinerary"
          (.list (prepareListItems (itineraryToVList itin)))).set "error"
            .null) := by
    unfold markAsCompleted
    rw [updateDocument_found _ _ _ _ h]
    rfl
  rw [hupd, find_put_self] at h2
  injection h2 with h2
  subst h2
  have hstat : ((((doc.set "status" (.str "completed")).set "completedAt"
      (.str (isoformat now))).set "itinerary"
        (.list (prepareListItems (itineraryToVList itin)))).set "error"
          .null).lookup "status" = some (.str "completed") := by
    rw [lookup_set_ne _ _ _ _ (by decide), lookup_set_ne _ _ _ _ (by decide),
      lookup_set_ne _ _ _ _ (by decide), lookup_set_self]
  have hitv : ((((doc.set "status" (.str "completed")).set "completedAt"
      (.str (isoformat now))).set "itinerary"
        (.list (prepareListItems (itineraryToVList itin)))).set "error"
          .null).lookup "itinerary" =
      some (.list (prepareListItems (itineraryToVList itin))) := by
    rw [lookup_set_ne _ _ _ _ (by decide), lookup_set_self]
  have hlen := validate_ok_length itin days hv
  have hday := validateDays_ok_day itin 1 (validate_ok_days itin days hv)
  constructor
  · rw [hstat]
    simp only [itinLength, hitv, length_prepareListItems,
      length_itineraryToVList, hlen]
  · intro _
    simp only [itinDays, hitv, dayValues_serialize]
    rw [map_day_eq_range itin days hlen hday]

theorem handleFailure_store (jobId msg : String) (fOk : Bool)
    (nowF : DateTime) (st : Store) (pre : List WriteAttempt) :
    (handleFailure jobId msg fOk nowF st pre).1 =
      if fOk then
        markAsFailed jobId ("Failed to generate itinerary: " ++ msg) nowF st
      else st := by
  unfold handleFailure
  cases fOk <;> simp

/-- C8: in every job-record state reachable through create (initial
Processing write) followed by the background run (at most one terminal
write, including the fallback `mark_as_failed` after a failed completed
write), the stored itinerary length equals `durationDays` iff the status
is `completed`, and when `completed` the stored `day` values are exactly
`1..durationDays` in order. -/
theorem claim_C8 (responses : Nat → Response)
    (destination jobId storeError : String) (days : Nat) (cOk fOk : Bool)
    (nowCr nowC nowF : DateTime) (st : Store)
    (h1 : 1 ≤ days) (h30 : days ≤ 30) (hfresh : st.find jobId = none) :
    (∀ doc,
      (generateItineraryEndpoint st jobId destination ((days : Int))
        nowCr).store.find jobId = some doc →
      recordInvariant doc days) ∧
    (∀ doc,
      (generateAndSave responses jobId days cOk fOk storeError nowC nowF
        (generateItineraryEndpoint st jobId destination ((days : Int))
          nowCr).store).1.find jobId = some doc →
      recordInvariant doc days) := by
  have hval : travelRequestValid destination ((days : Int)) = true := by
    simp only [travelRequestValid, Bool.and_eq_true, decide_eq_true_eq]
    omega
  have hcr := created_record st jobId destination ((days : Int)) nowCr hfresh
  rw [if_pos hval] at hcr
  have hfindC :
      (st.put jobId (prepareDoc
        (((initialFields destination ((days : Int)) nowCr).set "_id"
          (.str jobId)).set "jobId" (.str jobId)))).find jobId =
      some (prepareDoc
        (((initialFields destination ((days : Int)) nowCr).set "_id"
          (.str jobId)).set "jobId" (.str jobId))) :=
    find_put_self _ _ _
  have hitC : (prepareDoc
      (((initialFields destination ((days : Int)) nowCr).set "_id"
        (.str jobId)).set "jobId" (.str jobId))).lookup "itinerary" =
      some (.list .nil) := rfl
  have hstC : (prepareDoc
      (((initialFields destination ((days : Int)) nowCr).set "_id"
        (.str jobId)).set "jobId" (.str jobId))).lookup "status" =
      some (.str "processing") := rfl
  have hinvC := invariant_processing _ days h1 hitC hstC
  constructor
  · intro doc hdoc
    rw [hcr, hfindC] at hdoc
    injection hdoc with hdoc
    subst hdoc
    exact hinvC
  · intro doc hdoc
    rw [hcr] at hdoc
    unfold generateAndSave at hdoc
    rcases hg : (generateItinerary responses).result with e | itin <;>
      simp only [hg] at hdoc
    · rw [handleFailure_store] at hdoc
      cases fOk
      · rw [if_neg (by simp)] at hdoc
        rw [hfindC] at hdoc
        injection hdoc with hdoc
        subst hdoc
        exact hinvC
      · rw [if_pos rfl] at hdoc
        exact invariant_markAsFailed _ _ _ _ _ days hfindC h1 hitC doc hdoc
    · rcases hvv : validateItinerary itin days with ve | u <;>
        rw [hvv] at hdoc
      · rw [handleFailure_store] at hdoc
        cases fOk
        · rw [if_neg (by simp)] at hdoc
          rw [hfindC] at hdoc
          injection hdoc with hdoc
          subst hdoc
          exact hinvC
        · rw [if_pos rfl] at hdoc
          exact invariant_markAsFailed _ _ _ _ _ days hfindC h1 hitC doc hdoc
      · cases u
        cases cOk
        · simp only [Bool.false_eq_true, if_false] at hdoc
          rw [handleFailure_store] at hdoc
          cases fOk
          · rw [if_neg (by simp)] at hdoc
            rw [hfindC] at hdoc
            injection hdoc with hdoc
            subst hdoc
            exact hinvC
          · rw [if_pos rfl] at hdoc
            exact invariant_markAsFailed _ _ _ _ _ days hfindC h1 hitC doc hdoc
        · simp only [if_true] at hdoc
          exact invariant_markAsCompleted _ _ itin nowC _ days hfindC hvv doc
            hdoc

/-- C8 at a concrete run: a fresh one-day job whose provider answers a
well-formed body and whose writes succeed ends Completed with day list
`[1]`. -/
theorem claim_C8_witness :
    (∀ doc,
      (generateItineraryEndpoint [] "job-1" "Paris, France" ((1 : Nat) : Int)
        now0).store.find "job-1" = some doc →
      recordInvariant doc 1) ∧
    (∀ doc,
      (generateAndSave goodResponses "job-1" 1 true true "boom" now0 now0
        (generateItineraryEndpoint [] "job-1" "Paris, France" ((1 : Nat) : Int)
          now0).store).1.find "job-1" = some doc →
      recordInvariant doc 1) :=
  claim_C8 goodResponses "Paris, France" "job-1" "boom" 1 true true now0 now0
    now0 [] (by decide) (by decide) rfl

end Spec2Proof
